import Mathlib

/-
Verification development for the cifuzz core of this repository.
The module under test (infra/cifuzz/cifuzz.py) is exercised by
infra/cifuzz/cifuzz_test.py; its components are modelled here from the
specification: CoverageReportClient, AffectedTargetSelector,
FuzzerExecutionEngine, CrashTriageEngine, the sanitizer-output parser and
the top-level build step.  Directories are modelled as lists of file
names, remote fetches as injected ports returning an Option, and the
in-place mutation of the build output directory as the returned surviving
list.
-/

/-- Helper: does the character list start with the given pattern? -/
def starts_with_chars : List Char → List Char → Bool
  | _, [] => true
  | [], _ :: _ => false
  | c :: cs, p :: ps => c == p && starts_with_chars cs ps

/-- Helper: does the character list end with the given pattern? -/
def ends_with_chars (s pat : List Char) : Bool :=
  starts_with_chars s.reverse pat.reverse

/-- Helper: the suffix of a character list beginning at the first occurrence
of the pattern, or none when the pattern does not occur. -/
def find_marker : List Char → List Char → Option (List Char)
  | [], _ => none
  | c :: cs, pat =>
    if starts_with_chars (c :: cs) pat then some (c :: cs)
    else find_marker cs pat

/-- Helper: a string is non-blank when it has at least one character. -/
def nonblank (s : String) : Bool :=
  !s.data.isEmpty

/-- Modelled from the spec: the TriageVerdict enumeration of section 3,
produced by CrashTriageEngine only for targets whose run detected a crash. -/
inductive TriageVerdict where
  | no_crash
  | new_bug
  | pre_existing_bug
  | triage_inconclusive
deriving DecidableEq, Repr

/-- Modelled from the spec: cifuzz.py is not under src, so the
CrashTriageEngine protocol of section 4.6 is modelled from its words.
The first argument is the reproducibility oracle's answer on the current
build; the second is the answer on the baseline build, or none when the
baseline could not be obtained.  Not reproducible on current gives
no_crash; reproducible on both gives pre_existing_bug; reproducible only
on current gives new_bug; an unobtainable baseline gives
triage_inconclusive. -/
def triage (reproducible_on_current : Bool) (baseline_result : Option Bool) :
    TriageVerdict :=
  if reproducible_on_current then
    match baseline_result with
    | none => TriageVerdict.triage_inconclusive
    | some reproducible_on_baseline =>
      if reproducible_on_baseline then TriageVerdict.pre_existing_bug
      else TriageVerdict.new_bug
  else TriageVerdict.no_crash

/-- Modelled from the spec: per-target affectedness test of section 4.2.
A target with absent (unknown) coverage is affected (fail open); a target
with known coverage is affected exactly when its covered-files set
intersects the change set. -/
def is_affected (files_changed : List String)
    (coverage_lookup : String → Option (List String)) (target : String) :
    Bool :=
  match coverage_lookup target with
  | none => true
  | some covered_files => files_changed.any (fun f => covered_files.contains f)

/-- Modelled from the spec: cifuzz.py is not under src, so
remove_unaffected_fuzzers (AffectedTargetSelector, section 4.2) is modelled
from its words.  The output directory is the list of target names; the
per-target covered-files lookup is an injected port (absent project report
makes every lookup absent).  Per section 3, an absent or empty change set
signals treat-all-targets-as-affected, so the whole set is returned
unchanged.  Otherwise the affected targets are those passing is_affected;
section 8 states the exactness property only for change sets that intersect
at least one target's known covered files, so when no target at all is
affected the selector keeps the whole set as a conservative fallback;
otherwise exactly the affected targets survive and the rest are removed
from the output directory. -/
def remove_unaffected_fuzzers (targets : List String)
    (files_changed : Option (List String))
    (coverage_lookup : String → Option (List String)) : List String :=
  match files_changed with
  | none => targets
  | some [] => targets
  | some changed =>
    let affected := targets.filter (is_affected changed coverage_lookup)
    if affected.isEmpty then targets else affected

/-- Modelled from the spec: the sanitizer error signature the output parser
of section 4.5 recognizes in raw fuzzer output. -/
def SANITIZER_ERROR_MARKER : String := "ERROR: AddressSanitizer"

/-- Modelled from the spec: cifuzz.py is not under src, so the pure parse
of section 4.5 is modelled from its words: raw bytes holding a sanitizer
error signature yield the canonical summary (the transcript from the
signature onward); unrecognized bytes yield none. -/
def parse_crash_summary (raw : String) : Option String :=
  match find_marker raw.data SANITIZER_ERROR_MARKER.data with
  | none => none
  | some tail_chars => some (String.mk tail_chars)

/-- Modelled from the spec: name of the single summary file a successful
parse writes into the destination directory. -/
def bug_summary_file : String := "bug_summary.txt"

/-- Modelled from the spec: cifuzz.py is not under src, so
parse_fuzzer_output (section 4.5) is modelled from its words.  The
destination directory is a list of (file name, content) pairs; a
successful parse appends exactly one summary file holding the canonical
rendering, a failed parse writes nothing. -/
def parse_fuzzer_output (raw : String) (dest_dir : List (String × String)) :
    List (String × String) :=
  match parse_crash_summary raw with
  | none => dest_dir
  | some s => dest_dir ++ [(bug_summary_file, s)]

/-- Modelled from the spec: one fuzz-target execution of section 4.4, with
the crash-detected flag of its RunResult and the answers the
reproducibility oracle would give for its crash on the current and the
baseline build. -/
structure TargetRun where
  name : String
  crash_detected : Bool
  reproducible_on_current : Bool
  reproducible_on_baseline : Bool
deriving DecidableEq, Repr

/-- Modelled from the spec: the environment of a run_fuzzers invocation —
whether the output directory exists, the targets it holds, whether a
baseline build can be obtained, and whether an infrastructure failure
occurred during execution. -/
structure RunEnv where
  out_dir_exists : Bool
  targets : List TargetRun
  baseline_available : Bool
  infrastructure_failure : Bool
deriving DecidableEq, Repr

/-- Modelled from the spec: the TriageVerdict of one target run, produced
only when the run detected a crash (section 3 invariant); the baseline
answer is withheld from triage when no baseline is available. -/
def target_verdict (baseline_available : Bool) (t : TargetRun) :
    Option TriageVerdict :=
  if t.crash_detected then
    some (triage t.reproducible_on_current
      (if baseline_available then some t.reproducible_on_baseline else none))
  else none

/-- Modelled from the spec: which verdicts report a found bug — a new bug,
and an inconclusive triage (fail toward visibility, section 4.6); a
pre-existing bug and a non-reproducible crash are not reported. -/
def verdict_reports_bug (v : TriageVerdict) : Bool :=
  match v with
  | TriageVerdict.new_bug => true
  | TriageVerdict.triage_inconclusive => true
  | _ => false

/-- Modelled from the spec: cifuzz.py is not under src, so run_fuzzers
(FuzzerExecutionEngine, section 4.4) is modelled from its words.  It fails
fast with (false, false) when the time budget is not positive, the output
directory does not exist, or the directory holds no targets; otherwise
run_success is true exactly when no infrastructure failure occurred, and
bug_found is true exactly when some crashing target's verdict reports a
bug. -/
def run_fuzzers (fuzz_seconds : Int) (env : RunEnv) : Bool × Bool :=
  if fuzz_seconds ≤ 0 then (false, false)
  else if !env.out_dir_exists then (false, false)
  else if env.targets.isEmpty then (false, false)
  else
    let verdicts := env.targets.filterMap (target_verdict env.baseline_available)
    (!env.infrastructure_failure, verdicts.any verdict_reports_bug)

/-- Modelled from the spec: the inputs of the top-level build step —
whether the project and repository are recognized, whether the workspace
path is valid, and the commit-or-PR revision reference. -/
structure BuildRequest where
  project_known : Bool
  repo_known : Bool
  workspace_valid : Bool
  commit_sha : Option String
  pr_ref : Option String
deriving DecidableEq, Repr

/-- Modelled from the spec: a revision reference is structurally present
when a non-blank commit sha or a non-blank PR reference was supplied. -/
def has_revision_reference (req : BuildRequest) : Bool :=
  (match req.commit_sha with
   | some s => nonblank s
   | none => false) ||
  (match req.pr_ref with
   | some r => nonblank r
   | none => false)

/-- Modelled from the spec: the shape of a canonical pull-request merge
reference; build_fuzzers does not require it — a present but malformed PR
reference is tolerated by the checkout collaborator. -/
def pr_ref_well_formed (r : String) : Bool :=
  starts_with_chars r.data ("refs/pull/").data &&
    ends_with_chars r.data ("/merge").data

/-- Modelled from the spec: cifuzz.py is not under src, so build_fuzzers
(top-level build step, sections 6 and 7) is modelled from its words.  A
structurally absent revision reference (for example a blank commit sha and
no PR reference) is a hard precondition failure, surfaced as an error, not
a boolean; an unrecognized project, an unrecognized repository or an
invalid workspace path gives false; otherwise the build succeeds. -/
def build_fuzzers (req : BuildRequest) : Except String Bool :=
  if !has_revision_reference req then
    Except.error ("structurally invalid commit reference")
  else if !req.project_known then Except.ok false
  else if !req.repo_known then Except.ok false
  else if !req.workspace_valid then Except.ok false
  else Except.ok true

/-- Modelled from the spec: the parsed latest-report pointer of
CoverageReportClient (section 4.1), keyed by report date and the
fuzzer-stats location. -/
structure ReportInfo where
  report_date : String
  fuzzer_stats_dir : String
deriving DecidableEq, Repr

/-- Modelled from the spec: a per-target coverage report — for each source
file path, its covered-region count. -/
structure TargetCoverage where
  covered_file_counts : List (String × Nat)
deriving DecidableEq, Repr

/-- Modelled from the spec: root of the remote coverage-report store. -/
def oss_fuzz_cov_root : String := "https://storage.googleapis.com/oss-fuzz-coverage/"

/-- Modelled from the spec: deterministic remote location of a project's
latest-report pointer, keyed by project name. -/
def latest_report_url (project : String) : String :=
  oss_fuzz_cov_root ++ "latest_report_info/" ++ project ++ ".json"

/-- Modelled from the spec: cifuzz.py is not under src, so
get_latest_cov_report_info (section 4.1) is modelled from its words.  The
injected port performs the single fetch-and-parse attempt; a blank project
name, an unrecognized project or malformed report content all give
absent. -/
def get_latest_cov_report_info (fetch_report_info : String → Option ReportInfo)
    (project : String) : Option ReportInfo :=
  if project = "" then none
  else fetch_report_info (latest_report_url project)

/-- Modelled from the spec: deterministic remote location of a per-target
coverage report, keyed by the project's fuzzer-stats location (which holds
the report date) and the target name. -/
def target_report_url (info : ReportInfo) (target : String) : String :=
  info.fuzzer_stats_dir ++ "/" ++ target ++ ".json"

/-- Modelled from the spec: cifuzz.py is not under src, so
get_target_coverage_report (section 4.1) is modelled from its words.  An
absent (or malformed, hence unparsed) project report, a blank target name,
an unrecognized target or malformed per-target content all give absent. -/
def get_target_coverage_report (fetch_target_cov : String → Option TargetCoverage)
    (project_report : Option ReportInfo) (target : String) :
    Option TargetCoverage :=
  match project_report with
  | none => none
  | some info =>
    if target = "" then none
    else fetch_target_cov (target_report_url info target)

/-- Modelled from the spec: cifuzz.py is not under src, so
get_files_covered_by_target (section 4.1) is modelled from its words.  It
keeps the files of the per-target report with positive coverage that live
under the project build directory, made repository-relative; absence of
the per-target report, a blank build directory or an empty resulting list
gives absent. -/
def get_files_covered_by_target (fetch_target_cov : String → Option TargetCoverage)
    (project_report : Option ReportInfo) (target : String)
    (project_build_dir : String) : Option (List String) :=
  match get_target_coverage_report fetch_target_cov project_report target with
  | none => none
  | some cov =>
    if project_build_dir = "" then none
    else
      let dir_chars := (project_build_dir ++ "/").data
      let files := cov.covered_file_counts.filterMap (fun fc =>
        if fc.2 > 0 && starts_with_chars fc.1.data dir_chars then
          some (String.mk (fc.1.data.drop dir_chars.length))
        else none)
      if files.isEmpty then none else some files

/-- Concrete coverage-lookup port for the C1 counterexample: the only
target has known coverage that misses the change set. -/
def c1_lookup : String → Option (List String) :=
  fun t => if t = "fuzzerA" then some (["other_file.c"]) else none

/-- Concrete coverage-lookup port for the C1 witness: one target's known
coverage holds the changed file, the other's does not. -/
def c1w_lookup : String → Option (List String) :=
  fun t => if t = "fuzz1" then some (["test.txt"]) else some (["nope.c"])

/-- Concrete coverage-lookup port for the C2 witness: one target has known
coverage, the other's lookup is absent. -/
def c2_lookup : String → Option (List String) :=
  fun t => if t = "known_fuzzer" then some (["test.txt"]) else none

/-- Concrete output parser inputs for the C4 witness. -/
def c4_example_output : String := "INFO: Seed 1\nERROR: AddressSanitizer: heap-buffer-overflow READ 4"

/-- Expected canonical summary for the C4 witness. -/
def c4_expected_summary : String := "ERROR: AddressSanitizer: heap-buffer-overflow READ 4"

/-- Concrete unrecognizable bytes for the C5 witness. -/
def c5_invalid_output : String := "not a valid output_string"

/-- Concrete run environment for the C6 witness: an existing but empty
output directory. -/
def c6_env : RunEnv := ⟨true, [], true, false⟩

/-- Concrete build request for C7: blank commit sha and no PR reference. -/
def c7_blank_sha_request : BuildRequest := ⟨true, true, true, some (""), none⟩

/-- Concrete build request for C7: unrecognized project. -/
def c7_bad_project_request : BuildRequest :=
  ⟨false, true, true, some ("0b95fe1039ed"), none⟩

/-- Concrete build request for C7: unrecognized repository. -/
def c7_bad_repo_request : BuildRequest :=
  ⟨true, false, true, some ("0b95fe1039ed"), none⟩

/-- Concrete build request for C7: invalid workspace path. -/
def c7_bad_workspace_request : BuildRequest :=
  ⟨true, true, false, some ("0b95fe1039ed"), none⟩

/-- Concrete latest-report pointer for the C8 witness. -/
def c8_info : ReportInfo :=
  ⟨("20200226"),
   ("https://storage.googleapis.com/oss-fuzz-coverage/curl/fuzzer_stats/20200226")⟩

/-- Fetch port for the C8 witness whose every latest-report lookup fails. -/
def c8_no_fetch_info : String → Option ReportInfo := fun _ => none

/-- Fetch port for the C8 witness whose every per-target lookup fails. -/
def c8_no_fetch_cov : String → Option TargetCoverage := fun _ => none

/-- Concrete run environment for the C9 witness: one crashing target whose
crash reproduces on the current and on the baseline build. -/
def c9_env : RunEnv :=
  ⟨true, [⟨("example_crash_fuzzer"), true, true, true⟩], true, false⟩

/-- Concrete build request for C10: everything valid except the malformed
pull-request reference of the repository's own test. -/
def c10_request : BuildRequest := ⟨true, true, true, none, some ("ref-1/merge")⟩

/-- Claim C1 counterexample: the claim as stated is false on the selector.
With the non-absent change set [changed.txt] and a single target fuzzerA
whose coverage is known ([other_file.c]) and does not intersect the change
set, the claim demands that fuzzerA be removed; the selector keeps it,
because no target at all is affected and the whole set is kept as the
conservative fallback. -/
theorem c1_counterexample :
    c1_lookup ("fuzzerA") = some (["other_file.c"]) ∧
    (["changed.txt"]).any (fun f => (["other_file.c"]).contains f) = false ∧
    remove_unaffected_fuzzers (["fuzzerA"]) (some (["changed.txt"])) c1_lookup
      = ["fuzzerA"] := by
  refine ⟨rfl, by decide, by decide⟩

/-- Claim C1 (amended): for every target set and every non-absent,
non-empty change set, provided at least one target is affected (its
coverage unknown, or known and intersecting the change set), a target
whose coverage lookup is known is kept by remove_unaffected_fuzzers iff
its covered-files set intersects the change set; in particular every
known-coverage target whose covered files do not intersect the change set
is removed from the output directory. -/
theorem c1_selector_keeps_iff_intersects
    (targets : List String) (changed : List String)
    (coverage_lookup : String → Option (List String))
    (hne : changed ≠ [])
    (haff : (targets.filter (is_affected changed coverage_lookup)).isEmpty = false)
    (t : String) (covered : List String)
    (hcov : coverage_lookup t = some covered) :
    t ∈ remove_unaffected_fuzzers targets (some changed) coverage_lookup ↔
      t ∈ targets ∧ changed.any (fun f => covered.contains f) = true := by
  have hp : is_affected changed coverage_lookup t =
      changed.any (fun f => covered.contains f) := by
    unfold is_affected; rw [hcov]
  cases changed with
  | nil => exact absurd rfl hne
  | cons c cs =>
    simp only [remove_unaffected_fuzzers, haff, Bool.false_eq_true, if_false,
      List.mem_filter, hp]

/-- Claim C1 witness: with change set [test.txt], fuzz1 covering test.txt
and fuzz2 covering only nope.c, the selector removes fuzz2. -/
theorem c1_selector_witness :
    ¬ ("fuzz2" ∈ remove_unaffected_fuzzers (["fuzz1", "fuzz2"])
        (some (["test.txt"])) c1w_lookup) := by
  intro hmem
  have h := (c1_selector_keeps_iff_intersects (["fuzz1", "fuzz2"]) (["test.txt"])
    c1w_lookup (by decide) (by decide) ("fuzz2") (["nope.c"]) (by decide)).mp hmem
  exact absurd h.2 (by decide)

/-- Claim C2: a target whose per-target coverage lookup is absent is kept
by remove_unaffected_fuzzers for every content of the change set (fail
open: unknown coverage never causes exclusion). -/
theorem c2_unknown_coverage_kept
    (targets : List String) (files_changed : Option (List String))
    (coverage_lookup : String → Option (List String)) (t : String)
    (hmem : t ∈ targets) (hcov : coverage_lookup t = none) :
    t ∈ remove_unaffected_fuzzers targets files_changed coverage_lookup := by
  match files_changed with
  | none => exact hmem
  | some [] => exact hmem
  | some (c :: cs) =>
    have haff : is_affected (c :: cs) coverage_lookup t = true := by
      unfold is_affected; rw [hcov]
    cases hemp : (targets.filter (is_affected (c :: cs) coverage_lookup)).isEmpty with
    | true => simpa [remove_unaffected_fuzzers, hemp] using hmem
    | false =>
      have hmemf : t ∈ targets.filter (is_affected (c :: cs) coverage_lookup) :=
        List.mem_filter.mpr ⟨hmem, haff⟩
      simpa [remove_unaffected_fuzzers, hemp] using hmemf

/-- Claim C2 witness: mystery_fuzzer has an absent coverage lookup and is
kept although its (unknown) coverage cannot intersect the change set. -/
theorem c2_witness :
    "mystery_fuzzer" ∈ remove_unaffected_fuzzers
      (["known_fuzzer", "mystery_fuzzer"]) (some (["test.txt"])) c2_lookup :=
  c2_unknown_coverage_kept _ _ _ _ (by decide) (by decide)

/-- Claim C3: CrashTriageEngine classifies a crash reproducible on the
current build and not on the baseline as new_bug, and a crash reproducible
on both builds as pre_existing_bug. -/
theorem c3_triage_classification :
    triage true (some false) = TriageVerdict.new_bug ∧
    triage true (some true) = TriageVerdict.pre_existing_bug := by
  exact ⟨rfl, rfl⟩

/-- Claim C4: on a well-formed sanitizer crash transcript (one the parse
recognizes, yielding canonical summary s), parse_fuzzer_output writes into
the empty destination directory exactly one file, the summary file, whose
content is s. -/
theorem c4_parse_valid_output (raw s : String)
    (h : parse_crash_summary raw = some s) :
    parse_fuzzer_output raw [] = [(bug_summary_file, s)] := by
  unfold parse_fuzzer_output
  rw [h]
  rfl

/-- Claim C4 witness: a concrete transcript holding the sanitizer error
signature produces exactly the summary file with the canonical content. -/
theorem c4_witness :
    parse_crash_summary c4_example_output = some c4_expected_summary ∧
    parse_fuzzer_output c4_example_output [] =
      [(bug_summary_file, c4_expected_summary)] :=
  ⟨by decide, c4_parse_valid_output c4_example_output c4_expected_summary (by decide)⟩

/-- Claim C5: on bytes the parse does not recognize as sanitizer crash
output, parse_fuzzer_output writes nothing: the destination directory is
returned unchanged, so an empty directory stays empty. -/
theorem c5_parse_invalid_output (raw : String) (dest : List (String × String))
    (h : parse_crash_summary raw = none) :
    parse_fuzzer_output raw dest = dest := by
  unfold parse_fuzzer_output
  rw [h]

/-- Claim C5 witness: the unrecognizable bytes of the repository's own
test leave the empty destination directory empty. -/
theorem c5_witness : parse_fuzzer_output c5_invalid_output [] = [] :=
  c5_parse_invalid_output c5_invalid_output [] (by decide)

/-- Claim C6: run_fuzzers returns (run_success, bug_found) = (false, false)
whenever the time budget is not positive, the output directory does not
exist, or the output directory holds no fuzz targets. -/
theorem c6_run_fuzzers_fail_fast
    (fuzz_seconds : Int) (env : RunEnv)
    (h : fuzz_seconds ≤ 0 ∨ env.out_dir_exists = false ∨ env.targets = []) :
    run_fuzzers fuzz_seconds env = (false, false) := by
  unfold run_fuzzers
  by_cases hs : fuzz_seconds ≤ 0
  · simp [hs]
  · rcases h with h | h | h
    · exact absurd h hs
    · simp [hs, h]
    · cases hd : env.out_dir_exists <;> simp [hs, hd, h]

/-- Claim C6 witness: a zero-second budget over an existing but empty
output directory yields (false, false). -/
theorem c6_witness : run_fuzzers 0 c6_env = (false, false) :=
  c6_run_fuzzers_fail_fast 0 c6_env (Or.inl (by decide))

/-- Claim C7: build_fuzzers surfaces a blank commit sha with no PR
reference as a hard failure (an error, not a boolean), and returns the
boolean false for an unrecognized project, an unrecognized repository, or
an invalid workspace path whenever a structurally valid revision reference
is present. -/
theorem c7_build_error_contract (req : BuildRequest) :
    (req.commit_sha = some ("") → req.pr_ref = none →
      build_fuzzers req = Except.error ("structurally invalid commit reference")) ∧
    (has_revision_reference req = true → req.project_known = false →
      build_fuzzers req = Except.ok false) ∧
    (has_revision_reference req = true → req.project_known = true →
      req.repo_known = false → build_fuzzers req = Except.ok false) ∧
    (has_revision_reference req = true → req.project_known = true →
      req.repo_known = true → req.workspace_valid = false →
      build_fuzzers req = Except.ok false) := by
  refine ⟨?_, ?_, ?_, ?_⟩
  · intro hsha hpr
    have hrev : has_revision_reference req = false := by
      unfold has_revision_reference
      rw [hsha, hpr]
      decide
    simp [build_fuzzers, hrev]
  · intro hrev hproj
    simp [build_fuzzers, hrev, hproj]
  · intro hrev hproj hrepo
    simp [build_fuzzers, hrev, hproj, hrepo]
  · intro hrev hproj hrepo hws
    simp [build_fuzzers, hrev, hproj, hrepo, hws]

/-- Claim C7 witness: the four concrete requests of the repository's tests
give the error for the blank sha and the boolean false for the bad
project, bad repository and bad workspace. -/
theorem c7_witness :
    build_fuzzers c7_blank_sha_request =
      Except.error ("structurally invalid commit reference") ∧
    build_fuzzers c7_bad_project_request = Except.ok false ∧
    build_fuzzers c7_bad_repo_request = Except.ok false ∧
    build_fuzzers c7_bad_workspace_request = Except.ok false :=
  ⟨(c7_build_error_contract c7_blank_sha_request).1 rfl rfl,
   (c7_build_error_contract c7_bad_project_request).2.1 (by decide) rfl,
   (c7_build_error_contract c7_bad_repo_request).2.2.1 (by decide) rfl rfl,
   (c7_build_error_contract c7_bad_workspace_request).2.2.2 (by decide) rfl rfl rfl⟩

/-- Claim C8: every CoverageReportClient lookup returns the absent value
(none), never an error, on a blank project name, an unrecognized project
(the single fetch-and-parse attempt fails, covering malformed report
content), an absent or malformed project report, a blank target name, or
an unrecognized target. -/
theorem c8_coverage_lookups_absent
    (fetch_info : String → Option ReportInfo)
    (fetch_cov : String → Option TargetCoverage)
    (project target build_dir : String) (info : ReportInfo) :
    (get_latest_cov_report_info fetch_info ("") = none) ∧
    (fetch_info (latest_report_url project) = none →
      get_latest_cov_report_info fetch_info project = none) ∧
    (get_target_coverage_report fetch_cov none target = none) ∧
    (get_target_coverage_report fetch_cov (some info) ("") = none) ∧
    (fetch_cov (target_report_url info target) = none →
      get_target_coverage_report fetch_cov (some info) target = none) ∧
    (get_files_covered_by_target fetch_cov none target build_dir = none) ∧
    (get_files_covered_by_target fetch_cov (some info) ("") build_dir = none) := by
  refine ⟨rfl, ?_, rfl, rfl, ?_, rfl, rfl⟩
  · intro h
    unfold get_latest_cov_report_info
    by_cases hp : project = "" <;> simp [hp, h]
  · intro h
    unfold get_target_coverage_report
    by_cases ht : target = "" <;> simp [ht, h]

/-- Claim C8 witness: with fetch ports whose every attempt fails, the
blank and invalid names of the repository's tests all give none. -/
theorem c8_witness :
    (get_latest_cov_report_info c8_no_fetch_info ("") = none) ∧
    (get_latest_cov_report_info c8_no_fetch_info ("not-a-proj") = none) ∧
    (get_target_coverage_report c8_no_fetch_cov none ("curl_fuzzer") = none) ∧
    (get_target_coverage_report c8_no_fetch_cov (some c8_info) ("") = none) ∧
    (get_target_coverage_report c8_no_fetch_cov (some c8_info)
      ("not-valid-target") = none) ∧
    (get_files_covered_by_target c8_no_fetch_cov none ("curl_fuzzer")
      ("/src/curl") = none) ∧
    (get_files_covered_by_target c8_no_fetch_cov (some c8_info) ("")
      ("/src/curl") = none) := by
  have ha := c8_coverage_lookups_absent c8_no_fetch_info c8_no_fetch_cov
    ("not-a-proj") ("curl_fuzzer") ("/src/curl") c8_info
  have hb := c8_coverage_lookups_absent c8_no_fetch_info c8_no_fetch_cov
    ("not-a-proj") ("not-valid-target") ("/src/curl") c8_info
  exact ⟨ha.1, ha.2.1 rfl, ha.2.2.1, ha.2.2.2.1, hb.2.2.2.2.1 rfl,
    ha.2.2.2.2.2.1, ha.2.2.2.2.2.2⟩

/-- Claim C9: when every detected crash is reproducible on the current
build and also on the baseline build (pre-existing bugs), run_fuzzers over
a valid, non-empty output directory with a baseline available and no
infrastructure failure returns run_success = true and bug_found = false:
a pre-existing bug is not reported as found. -/
theorem c9_pre_existing_not_reported
    (fuzz_seconds : Int) (env : RunEnv)
    (hs : 0 < fuzz_seconds) (hdir : env.out_dir_exists = true)
    (hne : env.targets.isEmpty = false)
    (hbase : env.baseline_available = true)
    (hinfra : env.infrastructure_failure = false)
    (hrepro : ∀ t ∈ env.targets, t.crash_detected = true →
      t.reproducible_on_current = true ∧ t.reproducible_on_baseline = true) :
    run_fuzzers fuzz_seconds env = (true, false) := by
  have hnotle : ¬ fuzz_seconds ≤ 0 := not_le.mpr hs
  have hany : ∀ v ∈ env.targets.filterMap (target_verdict env.baseline_available),
      verdict_reports_bug v = false := by
    intro v hv
    rw [List.mem_filterMap] at hv
    obtain ⟨t, ht, hvt⟩ := hv
    unfold target_verdict at hvt
    cases hc : t.crash_detected with
    | false => rw [hc] at hvt; simp at hvt
    | true =>
      obtain ⟨h1, h2⟩ := hrepro t ht hc
      rw [hc, hbase, h1, h2] at hvt
      simp [triage] at hvt
      rw [← hvt]
      rfl
  have hanyfalse :
      (env.targets.filterMap (target_verdict env.baseline_available)).any
        verdict_reports_bug = false := by
    cases hres : (env.targets.filterMap (target_verdict env.baseline_available)).any
        verdict_reports_bug with
    | false => rfl
    | true =>
      obtain ⟨v, hv, hpv⟩ := List.any_eq_true.mp hres
      rw [hany v hv] at hpv
      exact absurd hpv (by decide)
  unfold run_fuzzers
  simp [hnotle, hdir, hne, hinfra, hanyfalse]

/-- Claim C9 witness: one crashing target reproducible on both builds
gives (true, false) under a ten-second budget. -/
theorem c9_witness : run_fuzzers 10 c9_env = (true, false) :=
  c9_pre_existing_not_reported 10 c9_env (by decide) rfl rfl rfl rfl (by decide)

/-- Claim C10: the malformed pull-request reference of the repository's
own test is not a well-formed merge reference, yet build_fuzzers with a
recognized project and repository, a valid workspace and no commit sha
returns the boolean true rather than an error or false. -/
theorem c10_malformed_pr_tolerated :
    pr_ref_well_formed ("ref-1/merge") = false ∧
    build_fuzzers c10_request = Except.ok true := by
  exact ⟨by decide, rfl⟩
